import Mathlib

/-!
Shallow embedding of the `zustand-auth-store` repository:
the token store (`src/auth-store.ts`, read as `src/unnamed/part_001`) and the
cookie accessor (`src/cookie-service.ts`).

External JavaScript facilities are modelled explicitly:
* `undefined` / absent values become `Option`;
* a thrown exception that the repository code catches becomes `none`
  (the payload decoder and `JSON.parse`), a thrown exception that
  escapes to the caller becomes `Except.error` (`schema.parse` inside
  `CookieService.get`);
* the ambient cookie jar (`js-cookie`) is a function `String → Option String`,
  and `Cookies.set` is a functional update of that map;
* dynamic JavaScript values are a `Json` inductive;
* `jwt-decode`'s base64url+JSON decoding of the payload segment,
  `JSON.parse`, `JSON.stringify`, and zod schemas are opaque to the
  repository, so they are parameters (`decodePart`, `parseFn`,
  `stringifyFn`, `Schema`); the JWT segment split performed by
  `jwt-decode` is modelled concretely because the store's behaviour on
  the empty string depends on it.
-/

/-- Dynamic JavaScript values (the image of JSON). -/
inductive Json where
  | null : Json
  | bool (b : Bool) : Json
  | num (n : Int) : Json
  | str (s : String) : Json
  | arr (elems : List Json) : Json
  | obj (fields : List (String × Json)) : Json

/-- `const role = z.enum(["admin", "user"])` from the auth store. -/
inductive Role where
  | admin : Role
  | user : Role
deriving DecidableEq

/-- `TokenDataSchema = z.object({ userId: z.string(), roles: z.array(role) })`. -/
structure TokenData where
  userId : String
  roles : List Role
deriving DecidableEq

/-- zod parse of the `role` enum: only the strings "admin" and "user" pass. -/
def parseRole : Json → Option Role
  | .str "admin" => some .admin
  | .str "user" => some .user
  | _ => none

/-- zod parse of `z.array(role)`: value must be an array, every element a role. -/
def parseRoles : Json → Option (List Role)
  | .arr xs => xs.mapM parseRole
  | _ => none

/-- JavaScript object property lookup (first binding wins). -/
def lookupField (fields : List (String × Json)) (k : String) : Option Json :=
  (fields.find? (fun p => p.1 == k)).map (fun p => p.2)

/-- `TokenDataSchema.parse`: input must be an object with a string `userId`
and a `roles` array of roles; unknown keys are stripped.  `none` models a
thrown `ZodError`. -/
def tokenDataSchemaParse : Json → Option TokenData
  | .obj fields => do
    let u ← lookupField fields "userId"
    let userId ← match u with | .str s => some s | _ => none
    let r ← lookupField fields "roles"
    let roles ← parseRoles r
    pure ⟨userId, roles⟩
  | _ => none

/-- `jwtDecode` from the `jwt-decode` library: split the token on ".",
take the second segment and decode it (base64url + `JSON.parse`, abstracted
as `decodePart`).  A token without a second segment throws
(`InvalidTokenError`), modelled as `none`; in particular the empty string
never decodes. -/
def jwtDecode (decodePart : String → Option Json) (token : String) : Option Json :=
  match token.toList.splitOn '.' with
  | _ :: p :: _ => decodePart (String.mk p)
  | _ => none

/-- `decodeAccessToken = (accessToken) => TokenDataSchema.parse(jwtDecode(accessToken))`.
`none` models a thrown exception from either step. -/
def decodeAccessToken (decodePart : String → Option Json) (accessToken : String) :
    Option TokenData :=
  (jwtDecode decodePart accessToken).bind tokenDataSchemaParse

/-- The data part of the zustand `AuthStore` record (the `actions` field is
the store's fixed method table and carries no state). -/
structure AuthState where
  accessToken : Option String
  accessTokenData : Option TokenData
  refreshToken : Option String
deriving DecidableEq

/-- `createStore` initial state: all three fields `undefined`. -/
def initialAuthState : AuthState :=
  { accessToken := none, accessTokenData := none, refreshToken := none }

/-- `setAccessToken`: computes `accessTokenData` as
`accessToken ? decodeAccessToken(accessToken) : undefined` inside a
`try/catch` that turns any decode exception into `undefined`, then performs
the single `set({accessToken, accessTokenData})` update.  JavaScript
truthiness makes the empty string skip decoding. -/
def setAccessToken (decodePart : String → Option Json) (accessToken : Option String)
    (s : AuthState) : AuthState :=
  let accessTokenData : Option TokenData :=
    match accessToken with
    | some t => if t = "" then none else decodeAccessToken decodePart t
    | none => none
  { s with accessToken := accessToken, accessTokenData := accessTokenData }

/-- `setRefreshToken`: direct `set({refreshToken})`. -/
def setRefreshToken (refreshToken : Option String) (s : AuthState) : AuthState :=
  { s with refreshToken := refreshToken }

/-- `clearTokens`: one `set` writing `undefined` into all three fields. -/
def clearTokens (_s : AuthState) : AuthState :=
  { accessToken := none, accessTokenData := none, refreshToken := none }

/-- The options record of `CookieService.get`; a zod schema is modelled by
its parse function `Json → Option Json` (`none` models a thrown `ZodError`,
`some` the value `.parse` returns). -/
structure GetOptions where
  parseJSON : Bool := false
  validationSchema : Option (Json → Option Json) := none

/-- The two store cookie keys. -/
def ACCESS_TOKEN_KEY : String := "accessToken"

def REFRESH_TOKEN_KEY : String := "refreshToken"

/-- The `mutatedValue` local of `CookieService.get`: the raw cookie string,
JSON-parsed when `parseJSON` is set and the parse succeeds, kept raw when the
parse throws (the `catch` swallows the error). -/
def mutatedValue (parseFn : String → Option Json) (value : String)
    (opts : GetOptions) : Json :=
  if opts.parseJSON then
    match parseFn value with
    | some j => j
    | none => .str value
  else .str value

/-- `CookieService.get(key, options)`: `undefined` for a missing cookie;
otherwise the (possibly JSON-parsed) value, passed through
`options.validationSchema.parse` when a schema is supplied.  `Except.error`
models the schema's exception escaping to the caller. -/
def CookieService.get (parseFn : String → Option Json)
    (cookies : String → Option String) (key : String) (opts : GetOptions) :
    Except Unit (Option Json) :=
  match cookies key with
  | none => .ok none
  | some value =>
    match opts.validationSchema with
    | some schema =>
      match schema (mutatedValue parseFn value opts) with
      | some r => .ok (some r)
      | none => .error ()
    | none => .ok (some (mutatedValue parseFn value opts))

/-- `CookieService.get(key)` with the options argument omitted: both branches
of the body are skipped and `Cookies.get(key)` (a raw string or `undefined`)
is returned unchanged. -/
def CookieService.getNoOptions (cookies : String → Option String) (key : String) :
    Option String :=
  cookies key

/-- `CookieService.set(key, value, attributes)`: a string value is stored
verbatim, any other value is stored as `JSON.stringify(value)`
(abstracted as `stringifyFn`); the result is the updated cookie jar.  The
`attributes` argument is an opaque pass-through to `js-cookie` and does not
affect the stored mapping. -/
def CookieService.set (stringifyFn : Json → String)
    (cookies : String → Option String) (key : String) (value : Json) :
    String → Option String :=
  let stringValue : String :=
    match value with
    | .str s => s
    | v => stringifyFn v
  fun k => if k = key then some stringValue else cookies k

/-- `init`: `setAccessToken(CookieService.get(ACCESS_TOKEN_KEY))` then
`setRefreshToken(CookieService.get(REFRESH_TOKEN_KEY))`, both cookie reads in
raw string mode (no options). -/
def init (decodePart : String → Option Json) (cookies : String → Option String)
    (s : AuthState) : AuthState :=
  setRefreshToken (CookieService.getNoOptions cookies REFRESH_TOKEN_KEY)
    (setAccessToken decodePart (CookieService.getNoOptions cookies ACCESS_TOKEN_KEY) s)

/-- One invocation of a store action.  `initA` carries the cookie jar
visible at the moment the action runs. -/
inductive StoreAction where
  | setAccess (t : Option String) : StoreAction
  | setRefresh (t : Option String) : StoreAction
  | initA (cookies : String → Option String) : StoreAction
  | clear : StoreAction

/-- Dispatch one action on the state. -/
def applyAction (decodePart : String → Option Json) : StoreAction → AuthState → AuthState
  | .setAccess t, s => setAccessToken decodePart t s
  | .setRefresh t, s => setRefreshToken t s
  | .initA cookies, s => init decodePart cookies s
  | .clear, s => clearTokens s

/-- Run a sequence of actions from a starting state. -/
def runActions (decodePart : String → Option Json) (acts : List StoreAction)
    (s : AuthState) : AuthState :=
  acts.foldl (fun st a => applyAction decodePart a st) s

/-- The store invariant: the claims field always equals the decode of the
stored access token. -/
def authInvariant (decodePart : String → Option Json) (s : AuthState) : Prop :=
  s.accessTokenData = s.accessToken.bind (decodeAccessToken decodePart)

/-! Concrete instances used by witnesses and counterexamples. -/

/-- A payload decoder that always fails (every segment is rejected). -/
def noDecode : String → Option Json := fun _ => none

/-- A sample decoded JWT payload. -/
def goodPayload : Json :=
  .obj [("userId", .str "u1"), ("roles", .arr [.str "admin", .str "user"])]

/-- A payload decoder that returns `goodPayload` for every segment. -/
def goodDecode : String → Option Json := fun _ => some goodPayload

/-- The claims extracted from `goodPayload` by the token schema. -/
def sampleData : TokenData := { userId := "u1", roles := [.admin, .user] }

/-- A one-entry cookie jar mapping "k" to "v". -/
def cookies1 : String → Option String := fun k => if k = "k" then some "v" else none

/-- The identity schema: accepts every value unchanged. -/
def idSchema : Json → Option Json := fun j => some j

/-! Helper lemmas about the store actions. -/

/-- The empty string never decodes: `jwt-decode` finds no payload segment. -/
theorem decodeAccessToken_empty (d : String → Option Json) :
    decodeAccessToken d "" = none := rfl

/-- `setAccessToken` stores exactly its argument in the `accessToken` field. -/
theorem setAccessToken_accessToken (d : String → Option Json) (t : Option String)
    (s : AuthState) : (setAccessToken d t s).accessToken = t := rfl

/-- `setAccessToken` stores the decode of its argument in `accessTokenData`;
the JavaScript truthiness test on the empty string agrees with the decoder,
which fails on the empty string anyway. -/
theorem setAccessToken_accessTokenData (d : String → Option Json) (t : Option String)
    (s : AuthState) :
    (setAccessToken d t s).accessTokenData = t.bind (decodeAccessToken d) := by
  cases t with
  | none => rfl
  | some t' =>
    by_cases h : t' = ""
    · subst h
      simp [setAccessToken, decodeAccessToken_empty]
    · simp [setAccessToken, h]

/-- `setAccessToken` leaves `refreshToken` alone. -/
theorem setAccessToken_refreshToken (d : String → Option Json) (t : Option String)
    (s : AuthState) : (setAccessToken d t s).refreshToken = s.refreshToken := rfl

/-- Full description of the state after `setAccessToken`. -/
theorem setAccessToken_eq (d : String → Option Json) (t : Option String)
    (s : AuthState) :
    setAccessToken d t s =
      { s with accessToken := t, accessTokenData := t.bind (decodeAccessToken d) } := by
  have h := setAccessToken_accessTokenData d t s
  cases hs : setAccessToken d t s with
  | mk a b c =>
    simp only [hs] at h
    simp only [AuthState.mk.injEq]
    refine ⟨?_, h.symm ▸ ?_, ?_⟩
    · have := setAccessToken_accessToken d t s
      simp [hs] at this
      simp [this]
    · rfl
    · have := setAccessToken_refreshToken d t s
      simp [hs] at this
      simp [this]

/-- C3: when decoding the token fails, `setAccessToken` returns normally (the
exception is caught inside the action, modelled by the action being a total
function) and the new state keeps the raw token while the claims field is
absent; nothing else changes. -/
theorem C3_decode_failure_keeps_raw_token (d : String → Option Json) (t : String)
    (s : AuthState) (h : decodeAccessToken d t = none) :
    setAccessToken d (some t) s =
      { s with accessToken := some t, accessTokenData := none } := by
  rw [setAccessToken_eq]
  simp [h]

/-- A fully populated concrete state, used by witnesses. -/
def fullState : AuthState :=
  { accessToken := some "a", accessTokenData := some sampleData,
    refreshToken := some "r" }

/-- C3 witness: a token rejected by the decoder, applied to a fully
populated state. -/
theorem C3_decode_failure_keeps_raw_token_witness :
    setAccessToken noDecode (some "x") fullState =
      { accessToken := some "x", accessTokenData := none, refreshToken := some "r" } :=
  C3_decode_failure_keeps_raw_token noDecode "x" fullState rfl

/-- C2 counterexample: "badtoken" fails to decode, yet after
`setAccessToken (some "badtoken")` the `accessToken` field is NOT absent —
it holds the raw token, contradicting "accessToken and accessTokenData are
both absent". -/
theorem C2_counterexample :
    decodeAccessToken noDecode "badtoken" = none ∧
    (setAccessToken noDecode (some "badtoken") initialAuthState).accessToken =
      some "badtoken" ∧
    (setAccessToken noDecode (some "badtoken") initialAuthState).accessToken ≠ none := by
  refine ⟨rfl, rfl, ?_⟩
  intro h
  exact Option.noConfusion h

/-- C2 (amended): when decode or schema validation of the token fails,
`setAccessToken token` forces only `accessTokenData` to absent, while
`accessToken` holds the given raw token. -/
theorem C2_decode_failure_claims_absent (d : String → Option Json) (t : String)
    (s : AuthState) (h : decodeAccessToken d t = none) :
    (setAccessToken d (some t) s).accessTokenData = none ∧
    (setAccessToken d (some t) s).accessToken = some t := by
  rw [setAccessToken_eq]
  simp [h]

/-- C2 witness: the failing decoder on a concrete token and state. -/
theorem C2_decode_failure_claims_absent_witness :
    (setAccessToken noDecode (some "t0") initialAuthState).accessTokenData = none ∧
    (setAccessToken noDecode (some "t0") initialAuthState).accessToken = some "t0" :=
  C2_decode_failure_claims_absent noDecode "t0" initialAuthState rfl

/-- C4: when the token decodes and validates, `setAccessToken` writes the
token and its decoded claims in the one `set` call that produces the new
state (a single atomic update in the embedding). -/
theorem C4_decode_success_sets_both (d : String → Option Json) (t : String)
    (td : TokenData) (s : AuthState) (h : decodeAccessToken d t = some td) :
    setAccessToken d (some t) s =
      { s with accessToken := some t, accessTokenData := some td } := by
  rw [setAccessToken_eq]
  simp [h]

/-- C4 witness: a concrete decoder and token whose payload satisfies the
claims schema. -/
theorem C4_decode_success_sets_both_witness :
    setAccessToken goodDecode (some "h.p") initialAuthState =
      { accessToken := some "h.p", accessTokenData := some sampleData,
        refreshToken := none } :=
  C4_decode_success_sets_both goodDecode "h.p" sampleData initialAuthState rfl

/-- C7: `setAccessToken` (with any argument, present or absent) never touches
`refreshToken`; `setRefreshToken` writes exactly its argument and never
touches `accessToken` or `accessTokenData`; and `setAccessToken none` blanks
both token fields while `refreshToken` stays. -/
theorem C7_setters_frame (d : String → Option Json) (t : Option String)
    (s : AuthState) :
    (setAccessToken d t s).refreshToken = s.refreshToken ∧
    (setRefreshToken t s).refreshToken = t ∧
    (setRefreshToken t s).accessToken = s.accessToken ∧
    (setRefreshToken t s).accessTokenData = s.accessTokenData ∧
    (setAccessToken d none s).accessToken = none ∧
    (setAccessToken d none s).accessTokenData = none ∧
    (setAccessToken d none s).refreshToken = s.refreshToken :=
  ⟨rfl, rfl, rfl, rfl, rfl, rfl, rfl⟩

/-- C8: `clearTokens` produces the all-absent state in one update, whatever
the prior state was. -/
theorem C8_clearTokens_resets (s : AuthState) :
    clearTokens s =
      { accessToken := none, accessTokenData := none, refreshToken := none } := rfl

/-! Cookie accessor claims. -/

/-- C5: with a validation schema supplied, `CookieService.get` throws exactly
when the (possibly JSON-parsed) cookie value does not satisfy the schema,
returns the schema's validated output otherwise, and returns absence without
ever throwing when no cookie is stored under the key. -/
theorem C5_get_validationSchema (parseFn : String → Option Json)
    (cookies : String → Option String) (key : String) (S : Json → Option Json)
    (opts : GetOptions) (hS : opts.validationSchema = some S) :
    (cookies key = none → CookieService.get parseFn cookies key opts = .ok none) ∧
    (∀ v, cookies key = some v →
      ((CookieService.get parseFn cookies key opts = .error ()) ↔
        S (mutatedValue parseFn v opts) = none) ∧
      (∀ r, S (mutatedValue parseFn v opts) = some r →
        CookieService.get parseFn cookies key opts = .ok (some r))) := by
  constructor
  · intro hc
    simp [CookieService.get, hc]
  · intro v hv
    constructor
    · cases hval : S (mutatedValue parseFn v opts) with
      | none => simp [CookieService.get, hv, hS, hval]
      | some r => simp [CookieService.get, hv, hS, hval]
    · intro r hr
      simp [CookieService.get, hv, hS, hr]

/-- C5 witness: a stored cookie checked against the identity schema, plus
the missing-key case on the same jar. -/
theorem C5_get_validationSchema_witness :
    (CookieService.get noDecode cookies1 "k" ⟨false, some idSchema⟩ =
      .ok (some (.str "v"))) ∧
    (CookieService.get noDecode cookies1 "absent" ⟨false, some idSchema⟩ =
      .ok none) := by
  constructor
  · exact (C5_get_validationSchema noDecode cookies1 "k" idSchema
      ⟨false, some idSchema⟩ rfl).2 "v" rfl |>.2 (.str "v") rfl
  · exact (C5_get_validationSchema noDecode cookies1 "absent" idSchema
      ⟨false, some idSchema⟩ rfl).1 rfl

/-- C9: with `parseJSON` set and no schema, a stored value that is not valid
JSON is returned as the original raw string and nothing is thrown (the parse
error is swallowed by the catch block). -/
theorem C9_parse_failure_keeps_raw (parseFn : String → Option Json)
    (cookies : String → Option String) (key v : String)
    (hv : cookies key = some v) (hp : parseFn v = none) :
    CookieService.get parseFn cookies key ⟨true, none⟩ = .ok (some (.str v)) := by
  simp [CookieService.get, hv, mutatedValue, hp]

/-- C9 witness: a decoder that rejects every string, on the one-entry jar. -/
theorem C9_parse_failure_keeps_raw_witness :
    CookieService.get noDecode cookies1 "k" ⟨true, none⟩ = .ok (some (.str "v")) :=
  C9_parse_failure_keeps_raw noDecode cookies1 "k" "v" rfl rfl

/-- C10: `CookieService.set` stores a string value verbatim under the key,
and stores `JSON.stringify` of any non-string value. -/
theorem C10_set_stringify (stringifyFn : Json → String)
    (cookies : String → Option String) (key : String) :
    (∀ s : String, CookieService.set stringifyFn cookies key (.str s) key = some s) ∧
    (∀ v : Json, (∀ s : String, v ≠ .str s) →
      CookieService.set stringifyFn cookies key v key = some (stringifyFn v)) := by
  constructor
  · intro s
    simp [CookieService.set]
  · intro v hv
    cases v with
    | str s => exact absurd rfl (hv s)
    | null => simp [CookieService.set]
    | bool b => simp [CookieService.set]
    | num n => simp [CookieService.set]
    | arr xs => simp [CookieService.set]
    | obj fs => simp [CookieService.set]

/-- A stand-in for `JSON.stringify`, used only as a witness input. -/
def stringify1 : Json → String := fun _ => "serialized"

/-- C10 witness: a string stored verbatim and a non-string stored through the
serializer, on an empty jar. -/
theorem C10_set_stringify_witness :
    CookieService.set stringify1 (fun _ => none) "k" (.str "abc") "k" = some "abc" ∧
    CookieService.set stringify1 (fun _ => none) "k" .null "k" =
      some (stringify1 .null) := by
  constructor
  · exact (C10_set_stringify stringify1 (fun _ => none) "k").1 "abc"
  · exact (C10_set_stringify stringify1 (fun _ => none) "k").2 .null
      (fun s h => Json.noConfusion h)

/-! The `init` claim. -/

/-- `CookieService.get` with default options is the raw cookie read: no JSON
parsing, no schema, the stored string (if any) passes through unchanged. -/
theorem get_defaultOptions_raw (parseFn : String → Option Json)
    (cookies : String → Option String) (key : String) :
    CookieService.get parseFn cookies key ⟨false, none⟩ =
      .ok ((CookieService.getNoOptions cookies key).map Json.str) := by
  cases hc : cookies key with
  | none => simp [CookieService.get, CookieService.getNoOptions, hc]
  | some v => simp [CookieService.get, CookieService.getNoOptions, hc, mutatedValue]

/-- C6: `init` is exactly `setAccessToken` on the raw `accessToken` cookie
followed by `setRefreshToken` on the raw `refreshToken` cookie, and running
it twice against the same cookie jar gives the same state as running it
once. -/
theorem C6_init_hydrates_and_idempotent (d : String → Option Json)
    (cookies : String → Option String) (s : AuthState) :
    init d cookies s =
      setRefreshToken (CookieService.getNoOptions cookies REFRESH_TOKEN_KEY)
        (setAccessToken d (CookieService.getNoOptions cookies ACCESS_TOKEN_KEY) s) ∧
    init d cookies (init d cookies s) = init d cookies s :=
  ⟨rfl, rfl⟩

/-! The reachable-state invariant. -/

/-- The initial state satisfies the invariant. -/
theorem authInvariant_initial (d : String → Option Json) :
    authInvariant d initialAuthState := rfl

/-- Every single action preserves the invariant (for `setAccessToken`,
`init` and `clearTokens` the new state satisfies it outright). -/
theorem authInvariant_applyAction (d : String → Option Json) (a : StoreAction)
    (s : AuthState) (h : authInvariant d s) :
    authInvariant d (applyAction d a s) := by
  cases a with
  | setAccess t =>
    show (setAccessToken d t s).accessTokenData =
      (setAccessToken d t s).accessToken.bind (decodeAccessToken d)
    rw [setAccessToken_accessTokenData, setAccessToken_accessToken]
  | setRefresh t =>
    exact h
  | initA cookies =>
    have h1 : (init d cookies s).accessTokenData =
        (CookieService.getNoOptions cookies ACCESS_TOKEN_KEY).bind
          (decodeAccessToken d) :=
      setAccessToken_accessTokenData d _ s
    have h2 : (init d cookies s).accessToken =
        CookieService.getNoOptions cookies ACCESS_TOKEN_KEY := rfl
    show (init d cookies s).accessTokenData =
      (init d cookies s).accessToken.bind (decodeAccessToken d)
    rw [h1, h2]
  | clear =>
    rfl

/-- Any action sequence starting from an invariant state lands in an
invariant state. -/
theorem authInvariant_runActions (d : String → Option Json)
    (acts : List StoreAction) :
    ∀ s : AuthState, authInvariant d s → authInvariant d (runActions d acts s) := by
  induction acts with
  | nil => intro s h; exact h
  | cons a as ih =>
    intro s h
    exact ih (applyAction d a s) (authInvariant_applyAction d a s h)

/-- C1: in every state reachable from the all-absent initial state by the
store actions, the claims field is present exactly when the access token is
present and decodes and validates against the token claims schema, and a
present claims field is the decode of the stored token. -/
theorem C1_reachable_invariant (d : String → Option Json)
    (acts : List StoreAction) :
    ((runActions d acts initialAuthState).accessTokenData.isSome ↔
      (∃ t, (runActions d acts initialAuthState).accessToken = some t ∧
        (decodeAccessToken d t).isSome)) ∧
    (∀ td, (runActions d acts initialAuthState).accessTokenData = some td →
      ∃ t, (runActions d acts initialAuthState).accessToken = some t ∧
        decodeAccessToken d t = some td) := by
  have inv : authInvariant d (runActions d acts initialAuthState) :=
    authInvariant_runActions d acts initialAuthState (authInvariant_initial d)
  unfold authInvariant at inv
  constructor
  · rw [inv]
    cases hA : (runActions d acts initialAuthState).accessToken with
    | none => simp
    | some t => simp
  · intro td htd
    rw [inv] at htd
    cases hA : (runActions d acts initialAuthState).accessToken with
    | none => rw [hA] at htd; exact Option.noConfusion htd
    | some t =>
      rw [hA] at htd
      exact ⟨t, rfl, htd⟩

/-- A sample action sequence: hydrate a good token, set a refresh token,
clear, then set the good token again. -/
def sampleActs : List StoreAction :=
  [.setAccess (some "h.p"), .setRefresh (some "r"), .clear,
    .setAccess (some "h.p")]

/-- C1 witness: the invariant instantiated at a concrete decoder and a
concrete action sequence. -/
theorem C1_reachable_invariant_witness :
    ((runActions goodDecode sampleActs initialAuthState).accessTokenData.isSome ↔
      (∃ t, (runActions goodDecode sampleActs initialAuthState).accessToken =
          some t ∧ (decodeAccessToken goodDecode t).isSome)) ∧
    (∀ td, (runActions goodDecode sampleActs initialAuthState).accessTokenData =
        some td →
      ∃ t, (runActions goodDecode sampleActs initialAuthState).accessToken =
          some t ∧ decodeAccessToken goodDecode t = some td) :=
  C1_reachable_invariant goodDecode sampleActs
